import Mathlib

set_option autoImplicit false

/-!
Verification of the stem tor-control library (src/stem/socket.py and
src/stem/control.py) against its natural-language specification.

The Python code is shallowly embedded: pure functions become Lean functions,
the stateful controller/socket objects become explicit record-passing
functions, and raised exceptions become `Except` error values. Strings are
either Lean `String` (controller layer) or `List Char` (wire codec layer,
where char-by-char recursion is needed). Logging calls in the source have no
observable effect and are dropped. The file has two parts: all definitions
first, then the lemmas and claim theorems.
-/

namespace Stem

/-! ## Python string primitives

Helpers mirroring the Python `str` methods used by the source
(`lower`, `strip`, `startswith`, `replace`, `" ".join`). -/

/-- The characters Python `str.strip()` removes: space, tab, LF, CR,
vertical tab and form feed. -/
def isPySpace (c : Char) : Bool :=
  c == ' ' || c == '\t' || c == '\n' || c == '\r' || c == '\x0b' || c == '\x0c'

/-- Python `s.lower()` (ASCII case, which is all the source uses). -/
def pyLower (s : String) : String :=
  ⟨s.data.map Char.toLower⟩

/-- `str.strip()` on a char list: drop leading and trailing whitespace. -/
def pyStripList (l : List Char) : List Char :=
  ((l.dropWhile isPySpace).reverse.dropWhile isPySpace).reverse

/-- Python `s.strip()`. -/
def pyStrip (s : String) : String :=
  ⟨pyStripList s.data⟩

/-- Python `s.startswith(pre)`. -/
def pyStartsWith (s pre : String) : Bool :=
  pre.data.isPrefixOf s.data

/-- Python `" ".join(items)`. -/
def joinSpace : List String → String
  | [] => ""
  | [x] => x
  | x :: rest => x ++ " " ++ joinSpace rest

/-- Python `s.replace(pat, rep)`: scan left to right, replacing
non-overlapping occurrences of `pat` by `rep`. -/
def strReplace (pat rep : List Char) : List Char → List Char
  | [] => []
  | c :: rest =>
    if h : (!pat.isEmpty && pat.isPrefixOf (c :: rest)) = true then
      rep ++ strReplace pat rep (List.drop pat.length (c :: rest))
    else
      c :: strReplace pat rep rest
termination_by l => l.length
decreasing_by
  · have hp : pat ≠ [] := by
      intro hn
      subst hn
      simp at h
    have hlen : 0 < pat.length := List.length_pos.mpr hp
    simp only [List.length_drop, List.length_cons]
    omega
  · simp

/-- Python `line[:-2]` (strip the trailing CRLF once it was checked). -/
def pyDropLast2 (l : List Char) : List Char :=
  l.take (l.length - 2)

/-! ## Assoc-list model of Python dicts

`self._request_cache` and the reply dictionaries are Python dicts; they are
modelled as association lists without duplicate keys. Assignment to an
existing key keeps its position (CPython semantics); a new key is appended. -/

/-- `d.get(k)` / `k in d` support: first value bound to `k`. -/
def alookup {α : Type} : List (String × α) → String → Option α
  | [], _ => none
  | (k', v) :: rest, k => if k' == k then some v else alookup rest k

/-- `d[k] = v`: overwrite in place if present, append otherwise. -/
def astore {α : Type} (m : List (String × α)) (k : String) (v : α) :
    List (String × α) :=
  if (alookup m k).isSome then
    m.map (fun kv => if kv.1 == k then (k, v) else kv)
  else
    m ++ [(k, v)]

/-- `del d[k]`. -/
def aerase {α : Type} (m : List (String × α)) (k : String) : List (String × α) :=
  m.filter (fun kv => kv.1 != k)

/-- `old.update(new)`: existing keys keep their position and take the new
value; new keys are appended in order. -/
def dictUpdate {α : Type} (old new : List (String × α)) : List (String × α) :=
  old.map (fun kv =>
    match alookup new kv.1 with
    | some v => (kv.1, v)
    | none => kv)
  ++ new.filter (fun kv => (alookup old kv.1).isNone)

/-- `set(params)` modelled as an order-preserving dedup (CPython set
iteration order is unspecified; every claim below exercises at most one
element, where any order refinement agrees). -/
def dedupSeen (seen : List String) : List String → List String
  | [] => []
  | x :: xs => if seen.contains x then dedupSeen seen xs
               else x :: dedupSeen (seen ++ [x]) xs

/-- Order-preserving `set(...)` of a list of strings. -/
def dedupKeepFirst (l : List String) : List String :=
  dedupSeen [] l

/-! ## Error taxonomy (src/stem/socket.py, classes at the bottom)

`SocketClosed < SocketError < ControllerError` and
`InvalidArguments < InvalidRequest < OperationFailed < ControllerError` in
Python; the flat inductive keeps one constructor per concrete class and
`isinstance` checks become the predicates below. The extra `valueError`
constructor carries Python `ValueError` (NOT a `ControllerError` subclass in
the source, raised by `_case_insensitive_lookup`) through the same error
channel of the embedding; no claim rests on its classification. -/

inductive ControllerError where
  | protocolError (msg : String)
  | operationFailed (code msg : String)
  | unsatisfiableRequest (code msg : String)
  | invalidRequest (code msg : String)
  | invalidArguments (code msg : String) (args : List String)
  | socketError (msg : String)
  | socketClosed (msg : String)
  | valueError (msg : String)
deriving DecidableEq, Repr

/-- `isinstance(e, SocketClosed)`. -/
def ControllerError.isSocketClosed : ControllerError → Bool
  | .socketClosed _ => true
  | _ => false

/-- `isinstance(e, SocketError)` (a `SocketClosed` is also a `SocketError`). -/
def ControllerError.isSocketKind : ControllerError → Bool
  | .socketError _ => true
  | .socketClosed _ => true
  | _ => false

/-! ## Wire codec, encode side (src/stem/socket.py `send_formatting`) -/

/-- `send_formatting(message)` from src/stem/socket.py:
normalize CRLF to LF; a message containing LF is sent in the multi-line
form `+<body with LF replaced by CRLF>CRLF.CRLF`, otherwise as
`<message>CRLF`. -/
def send_formatting (message : List Char) : List Char :=
  let message := strReplace ['\r', '\n'] ['\n'] message
  if message.contains '\n' then
    '+' :: (strReplace ['\n'] ['\r', '\n'] message ++ ['\r', '\n', '.', '\r', '\n'])
  else
    message ++ ['\r', '\n']

/-- Spec-side restatement of "normalize any CRLF to LF" as a plain
char recursion (for comparison with the `str.replace` based source). -/
def crlfToLf : List Char → List Char
  | [] => []
  | [c] => [c]
  | c₁ :: c₂ :: rest =>
    if c₁ = '\r' ∧ c₂ = '\n' then '\n' :: crlfToLf rest
    else c₁ :: crlfToLf (c₂ :: rest)

/-- Spec-side restatement of "each LF replaced by CRLF". -/
def lfToCrlf : List Char → List Char
  | [] => []
  | c :: rest =>
    if c = '\n' then '\r' :: '\n' :: lfToCrlf rest else c :: lfToCrlf rest

/-! ## Reply messages (src/stem/response, `ControlMessage`)

Modelled from the spec: `stem/response/__init__.py` is not under `src/`
(only `recv_message`, which builds the object from `parsed_content`, and the
converters that consume it are). Per spec section 3, a reply is the ordered
list of `(status_code, divider, content)` triples and `content()` returns
exactly that list. -/

structure ControlLine where
  code : List Char
  divider : Char
  content : List Char
deriving DecidableEq, Repr

structure ControlMessage where
  lines : List ControlLine
deriving DecidableEq, Repr

/-- Modelled from the spec: `ControlMessage.content()` returns the parsed
`(code, divider, content)` triples the message was built from. -/
def ControlMessage.content (m : ControlMessage) : List ControlLine :=
  m.lines

/-- Python `message.content()[-1][0]`: status code of the final line
(replies built by `recv_message` are never empty). -/
def lastStatusCode (m : ControlMessage) : List Char :=
  (m.content.getLastD ⟨[], ' ', []⟩).code

/-! ## Wire codec, decode side (src/stem/socket.py `recv_message`)

The control file is modelled as the list of lines successive `readline()`
calls deliver; an exhausted list (or an empty-string element) models the
zero-byte read of a closed stream. Reads that raise `socket.error` or
`AttributeError` inside `readline` are outside this model (they map to
`SocketClosed` in the source just like the paths kept here).

`recv_message` is two nested `while` loops, each consuming one line per
iteration from the same file; they are flattened into one structurally
recursive loop over the line list with an explicit mode marker for being
inside a data block. -/

/-- Matches `re.match(r'^[a-zA-Z0-9]{3}[-+ ]', line)`. -/
def statusPrefixOk : List Char → Bool
  | a :: b :: c :: d :: _ =>
    a.isAlphanum && b.isAlphanum && c.isAlphanum &&
      (d == '-' || d == ' ' || d == '+')
  | _ => false

/-- Python `line.endswith("\r\n")`. -/
def endsWithCrlf (l : List Char) : Bool :=
  ['\r', '\n'].isSuffixOf l

/-- Where the decode loop stands: at the top of a reply line, or inside a
`+` data block begun by a line with the given status code, with the content
accumulated so far. -/
inductive RecvMode where
  | top
  | inData (code : List Char) (content : List Char)
deriving DecidableEq, Repr

/-- The body of `recv_message`: `parsed` is `parsed_content` so far. -/
def recvGo (parsed : List ControlLine) :
    RecvMode → List (List Char) → Except ControllerError ControlMessage
  | .top, [] =>
    -- readline() on the dead socket delivers "" and the `len(line) == 0` check fires
    .error (.socketClosed "Received empty socket content.")
  | .top, line :: rest =>
    if line.length = 0 then
      .error (.socketClosed "Received empty socket content.")
    else if line.length < 4 then
      .error (.protocolError "Badly formatted reply line: too short")
    else if !statusPrefixOk line then
      .error (.protocolError "Badly formatted reply line: beginning is malformed")
    else if !endsWithCrlf line then
      .error (.protocolError "All lines should end with CRLF")
    else
      let body := pyDropLast2 line
      let code := body.take 3
      let divider := body.getD 3 ' '
      let content := body.drop 4
      if divider = '-' then
        recvGo (parsed ++ [⟨code, divider, content⟩]) .top rest
      else if divider = ' ' then
        .ok ⟨parsed ++ [⟨code, divider, content⟩]⟩
      else if divider = '+' then
        recvGo parsed (.inData code content) rest
      else
        .error (.protocolError "Unrecognized divider type")
  | .inData _ _, [] =>
    -- readline() delivers "" which fails the inner CRLF check
    .error (.protocolError "All lines should end with CRLF")
  | .inData code content, line :: rest =>
    if !endsWithCrlf line then
      .error (.protocolError "All lines should end with CRLF")
    else if line = ['.', '\r', '\n'] then
      -- data block termination; the data entry joins parsed_content
      recvGo (parsed ++ [⟨code, '+', content⟩]) .top rest
    else
      let l := pyDropLast2 line
      let l := if ['.', '.'].isPrefixOf l then l.drop 1 else l
      recvGo parsed (.inData code (content ++ '\n' :: l)) rest

/-- `recv_message(control_file)`. -/
def recv_message (lines : List (List Char)) : Except ControllerError ControlMessage :=
  recvGo [] .top lines

/-! ## Transport state machine
(src/stem/socket.py `ControlSocket`, src/stem/control.py `BaseController`)

The observable state of one controller/socket pair: the `_is_alive` flag,
the registered status listeners (identified by number; the `spawn` flag only
chooses the delivering thread) and the log of notifications delivered so
far. `BaseController` patches its `_close` over the socket's `_close`
callback, so `ControlSocket.close()` ends in `_notify_status_listeners`. -/

inductive State where
  | INIT
  | RESET
  | CLOSED
deriving DecidableEq, Repr

structure ConnSt where
  isAlive : Bool
  listeners : List Nat
  notifications : List (Nat × State)
deriving DecidableEq, Repr

/-- `BaseController._notify_status_listeners(state, expect_alive)`: if
`expect_alive` is set and disagrees with `is_alive()`, discard the
notification; otherwise every registered listener is called once, in
registration order. -/
def notify_status_listeners (s : ConnSt) (st : State) (expectAlive : Option Bool) :
    ConnSt :=
  match expectAlive with
  | some e =>
    if e != s.isAlive then s
    else { s with notifications := s.notifications ++ s.listeners.map (fun l => (l, st)) }
  | none =>
    { s with notifications := s.notifications ++ s.listeners.map (fun l => (l, st)) }

/-- `BaseController._close`: wake and join the worker threads (thread
bookkeeping has no observable effect here), then notify `CLOSED` with
`expect_alive = False`; the original `_socket_close` callback is a no-op. -/
def base_controller_close (s : ConnSt) : ConnSt :=
  notify_status_listeners s State.CLOSED (some false)

/-- `ControlSocket.close()`: remember whether `is_alive()` changes, tear the
socket down, clear `_is_alive`, and only on a change invoke the `_close`
callback (`BaseController._close`). -/
def control_socket_close (s : ConnSt) : ConnSt :=
  let isChange := s.isAlive
  let s' := { s with isAlive := false }
  if isChange then base_controller_close s' else s'

/-- Outcome of the underlying `control_file.write` + `flush` in
`send_message`: success, a `socket.error` with the given message, or an
`AttributeError` from an already detached file. -/
inductive WriteResult where
  | success
  | socketError (msg : String)
  | attributeError
deriving DecidableEq, Repr

/-- `send_message(control_file, message, raw)` from src/stem/socket.py,
projected onto its error behaviour (the bytes written are
`send_formatting(message)`, which does not influence the outcome): a
`socket.error` reading `[Errno 32] Broken pipe` becomes `SocketClosed`,
any other `socket.error` becomes `SocketError`, and an `AttributeError`
(file already closed) becomes `SocketClosed`. -/
def sendMessageOutcome : WriteResult → Except ControllerError Unit
  | .success => .ok ()
  | .socketError m =>
    if m == "[Errno 32] Broken pipe" then .error (.socketClosed m)
    else .error (.socketError m)
  | .attributeError => .error (.socketClosed "file has been closed")

/-- `ControlSocket.send(message)`: raise `SocketClosed` if already dead;
otherwise run `send_message`. Only `except SocketClosed` triggers the
`close()` path — any other error propagates with the socket untouched. -/
def control_socket_send (s : ConnSt) (w : WriteResult) :
    ConnSt × Except ControllerError Unit :=
  match (if s.isAlive then sendMessageOutcome w else .error (.socketClosed "")) with
  | .ok _ => (s, .ok ())
  | .error e =>
    if e.isSocketClosed then
      (if s.isAlive then control_socket_close s else s, .error e)
    else
      (s, .error e)

/-! ## Reader loop routing (src/stem/control.py `BaseController._reader_loop`)

The loop pulls `recv()` results while alive and routes each one: a message
whose `content()[-1][0] == "650"` goes to the event queue (and wakes the
event thread), any other message goes to the reply queue, and every
`ControllerError` raised by `recv()` is deposited in the reply queue. The
sequence of `recv()` outcomes observed during one connection is the input
list; the result is (event queue contents, reply queue contents). -/

inductive QueueItem where
  | msg (m : ControlMessage)
  | err (e : ControllerError)
deriving DecidableEq, Repr

/-- One connection worth of `BaseController._reader_loop` routing. -/
def reader_loop :
    List (Except ControllerError ControlMessage) →
      List ControlMessage × List QueueItem
  | [] => ([], [])
  | .ok m :: rest =>
    let (evs, reps) := reader_loop rest
    if lastStatusCode m = ['6', '5', '0'] then (m :: evs, reps)
    else (evs, .msg m :: reps)
  | .error e :: rest =>
    let (evs, reps) := reader_loop rest
    (evs, .err e :: reps)

/-- `BaseController._event_loop`: drain the event queue, handing each
message to `_handle_event` in queue order; the result is the sequence of
messages delivered to the handler. -/
def event_loop : List ControlMessage → List ControlMessage
  | [] => []
  | m :: rest => m :: event_loop rest

/-! ## Controller session (src/stem/control.py `Controller`)

Observable session state: the request cache (one assoc list per namespace;
the Python dict keys are disjointly prefixed `getinfo.` / `getconf.`, so a
pair of maps carries the same information), the geoip failure counter and
the caching flag. Each operation returns the new state, the list of
commands sent on the wire, and its result; the tor response to the single
command a call may send is passed in as an `Except` (covering `msg()` and
`stem.response.convert` failures alike). -/

structure CtrlState where
  getinfoCache : List (String × String)
  getconfCache : List (String × List (Option String))
  geoipFailureCount : Int
  isCachingEnabled : Bool
deriving DecidableEq, Repr

/-- `GEOIP_FAILURE_THRESHOLD` from src/stem/control.py. -/
def GEOIP_FAILURE_THRESHOLD : Int := 5

/-- `CACHEABLE_GETINFO_PARAMS` from src/stem/control.py. -/
def CACHEABLE_GETINFO_PARAMS : List String :=
  ["version", "config-file", "exit-policy/default", "fingerprint",
   "config/names", "config/defaults", "info/names", "events/names",
   "features/names", "process/descriptor-limit"]

/-- `MAPPED_CONFIG_KEYS` from src/stem/control.py (lowercased alias →
canonical group key). -/
def MAPPED_CONFIG_KEYS : List (String × String) :=
  [("hiddenservicedir", "HiddenServiceOptions"),
   ("hiddenserviceport", "HiddenServiceOptions"),
   ("hiddenserviceversion", "HiddenServiceOptions"),
   ("hiddenserviceauthorizeclient", "HiddenServiceOptions"),
   ("hiddenserviceoptions", "HiddenServiceOptions")]

/-- `Controller.is_geoip_unavailable()`. -/
def is_geoip_unavailable (st : CtrlState) : Bool :=
  decide (GEOIP_FAILURE_THRESHOLD ≤ st.geoipFailureCount)

/-- `Controller.clear_cache()`: drop every cached result and reset the
geoip failure counter to 0. -/
def clear_cache (st : CtrlState) : CtrlState :=
  { st with getinfoCache := [], getconfCache := [], geoipFailureCount := 0 }

/-- Result of a `get_info` call: a bare string (single-key call), a mapping
(multi-key call), or the opaque caller-supplied default. -/
inductive InfoResult where
  | str (s : String)
  | map (m : List (String × String))
  | dflt
deriving DecidableEq, Repr

/-- The cache-check loop at the top of `get_info`: walk the requested
parameters; a cache hit moves the parameter into `reply`; an uncached
`ip-to-country/` parameter with the geoip database judged unavailable
raises `ProtocolError` at once — NOTE: this raise sits outside the
`try` block that applies the caller default. -/
def getInfoScan (st : CtrlState) :
    List String → List String → List (String × String) →
      Except ControllerError (List (String × String) × List String)
  | [], remaining, reply => .ok (reply, remaining)
  | p :: rest, remaining, reply =>
    match alookup st.getinfoCache ("getinfo." ++ pyLower p) with
    | some v => getInfoScan st rest (remaining.erase p) (reply ++ [(p, v)])
    | none =>
      if pyStartsWith p "ip-to-country/" && is_geoip_unavailable st then
        .error (.protocolError "Tor geoip database is unavailable")
      else
        getInfoScan st rest remaining reply

/-- Modelled from the spec: `stem/response/__init__.py` (the GETINFO
converter with `assert_matches`) is not under `src/`. Per spec section 4.3
the reply must "contain a value for every requested key (missing keys →
ProtocolError)". -/
def assertMatches (entries : List (String × String)) (params : List String) : Bool :=
  params.all (fun p => (alookup entries p).isSome)

/-- One iteration of the cache-update loop of a successful `get_info`: keys
on the cacheable allow-list are stored; `ip-to-country/` keys are stored
AND pin the geoip failure counter to `-1`. -/
def cacheGetinfoStep (st : CtrlState) (kv : String × String) : CtrlState :=
  let k := pyLower kv.1
  if CACHEABLE_GETINFO_PARAMS.contains k then
    { st with getinfoCache := astore st.getinfoCache ("getinfo." ++ k) kv.2 }
  else if pyStartsWith k "ip-to-country/" then
    { st with getinfoCache := astore st.getinfoCache ("getinfo." ++ k) kv.2,
              geoipFailureCount := -1 }
  else st

/-- The cache-update loop of a successful `get_info`. -/
def cacheGetinfoEntries : CtrlState → List (String × String) → CtrlState
  | st, [] => st
  | st, kv :: rest => cacheGetinfoEntries (cacheGetinfoStep st kv) rest

/-- The `try` body between `msg()` and `assert_matches`: a failure of
either becomes the raised error; an OK response must cover every still
requested parameter. -/
def getInfoAttempt (remaining : List String)
    (resp : Except ControllerError (List (String × String))) :
    Except ControllerError (List (String × String)) :=
  match resp with
  | .error e => .error e
  | .ok entries =>
    if assertMatches entries remaining then .ok entries
    else .error (.protocolError "GETINFO reply doesn't match the requested parameters")

/-- The `except` clause of `get_info`: bump the geoip failure counter when
the failed request was solely an `ip-to-country/` lookup, caching is on and
no geoip lookup ever succeeded (counter not `-1`). -/
def getInfoFailureCount (st : CtrlState) (remaining : List String) : CtrlState :=
  if (remaining.length == 1 && pyStartsWith (remaining.headD "") "ip-to-country/")
      && st.isCachingEnabled && (st.geoipFailureCount != -1) then
    { st with geoipFailureCount := st.geoipFailureCount + 1 }
  else st

/-- Shape of a `get_info` return value: the map for a list call, the single
value (`reply.values()[0]`) for a string call. -/
def infoProject (isMultiple : Bool) (reply : List (String × String)) : InfoResult :=
  if isMultiple then .map reply else .str (reply.headD ("", "")).2

/-- `Controller.get_info(params, default)` from src/stem/control.py.
`isMultiple` tells whether the Python caller passed a list (`True`) or a
bare string (`False`, `params₀` a singleton); `hasDefault` whether `default`
differs from the `UNDEFINED` sentinel; `resp` is the converted tor response
for the single `GETINFO` command the call may send. -/
def get_info (st : CtrlState) (params₀ : List String)
    (isMultiple hasDefault : Bool)
    (resp : Except ControllerError (List (String × String))) :
    CtrlState × List String × Except ControllerError InfoResult :=
  if isMultiple && params₀.isEmpty then (st, [], .ok (.map []))
  else
    match getInfoScan st (dedupKeepFirst params₀) (dedupKeepFirst params₀) [] with
    | .error e => (st, [], .error e)
    | .ok (reply, remaining) =>
      if remaining.isEmpty then
        (st, [], .ok (infoProject isMultiple reply))
      else
        match getInfoAttempt remaining resp with
        | .ok entries =>
          (if st.isCachingEnabled then cacheGetinfoEntries st entries else st,
           ["GETINFO " ++ joinSpace remaining],
           .ok (infoProject isMultiple (dictUpdate reply entries)))
        | .error e =>
          if hasDefault then
            (getInfoFailureCount st remaining, ["GETINFO " ++ joinSpace remaining], .ok .dflt)
          else
            (getInfoFailureCount st remaining, ["GETINFO " ++ joinSpace remaining], .error e)

/-- Result of a `get_conf` / `get_conf_map` call. GETCONF values are lists
whose entries may be `none` (a bare `KEY` reply line); `multiple = False`
projects each list to its first element. `pyNone` is the Python `None`
returned for a whitespace-only key; `dflt` the opaque caller default. -/
inductive ConfResult where
  | map (m : List (String × List (Option String)))
  | mapFirst (m : List (String × Option String))
  | list (vs : List (Option String))
  | str (v : Option String)
  | pyNone
  | dflt
deriving DecidableEq, Repr

/-- `_case_insensitive_lookup` over a list of strings with the looked-up
key as its own default (as used for the user-casing rewrite). -/
def ciLookupList (entries : List String) (key : String) : String :=
  match entries.find? (fun e => pyLower e == pyLower key) with
  | some e => e
  | none => key

/-- `_case_insensitive_lookup` over a dict, as an `Option`. -/
def ciLookupMap {α : Type} (entries : List (String × α)) (key : String) : Option α :=
  (entries.find? (fun kv => pyLower kv.1 == pyLower key)).map Prod.snd

/-- `reply[user_expected_key] = reply[key]; del reply[key]` — the new key is
assigned first (appending it), then the tor-cased key is deleted. -/
def renameKey {α : Type} (m : List (String × α)) (key uek : String) :
    List (String × α) :=
  match alookup m key with
  | some v => aerase (astore m uek v) key
  | none => m

/-- The user-casing rewrite loop at the end of `get_conf_map`. The source
guard is `not key.lower() in MAPPED_CONFIG_KEYS.values()`: it compares a
lowercased key against the camel-cased group values, so it can never find a
match — the guard is kept exactly as written. The loop iterates over a
snapshot of the reply keys. -/
def rewriteUserCasing (params : List String)
    (reply : List (String × List (Option String))) :
    List (String × List (Option String)) :=
  (reply.map Prod.fst).foldl
    (fun r key =>
      if !((MAPPED_CONFIG_KEYS.map Prod.snd).contains (pyLower key)) then
        let uek := ciLookupList params key
        if key != uek then renameKey r key uek else r
      else r)
    reply

/-- Shape of a `get_conf_map` return value: the full list map, or each list
projected to its first element when `multiple` is `False`. -/
def confProject (multiple : Bool) (reply : List (String × List (Option String))) :
    ConfResult :=
  if multiple then .map reply
  else .mapFirst (reply.map (fun kv => (kv.1, kv.2.headD none)))

/-- The cache-store loop of a successful `get_conf_map`: each reply entry
is stored under its tor-normalized (lowercased) key. -/
def cacheGetconfEntries (st : CtrlState)
    (entries : List (String × List (Option String))) : CtrlState :=
  let newCache :=
    entries.foldl (fun c kv => astore c ("getconf." ++ pyLower kv.1) kv.2)
      st.getconfCache
  if st.isCachingEnabled then { st with getconfCache := newCache } else st

/-- `get_conf_map` after alias translation and the cache check: `reply`
holds the cache hits, `remaining` the parameters still to fetch. -/
def getConfMapFetch (st : CtrlState) (params : List String)
    (reply : List (String × List (Option String))) (remaining : List String)
    (hasDefault multiple : Bool)
    (resp : Except ControllerError (List (String × List (Option String)))) :
    CtrlState × List String × Except ControllerError ConfResult :=
  if remaining.isEmpty then
    (st, [], .ok (confProject multiple reply))
  else
    match resp with
    | .error e =>
      if hasDefault then (st, ["GETCONF " ++ joinSpace remaining], .ok .dflt)
      else (st, ["GETCONF " ++ joinSpace remaining], .error e)
    | .ok entries =>
      (cacheGetconfEntries st entries,
       ["GETCONF " ++ joinSpace remaining],
       .ok (confProject multiple (rewriteUserCasing params (dictUpdate reply entries))))

/-- `Controller.get_conf_map(params, default, multiple)` from
src/stem/control.py. `hasDefault` is whether `default` differs from the
`UNDEFINED` sentinel; `resp` is the converted tor response (entries of the
GETCONF reply) for the single command the call may send. The alias
translation is a case-SENSITIVE dict lookup against the lowercase-keyed
`MAPPED_CONFIG_KEYS` table, exactly as in the source. -/
def get_conf_map (st : CtrlState) (params₀ : List String)
    (hasDefault multiple : Bool)
    (resp : Except ControllerError (List (String × List (Option String)))) :
    CtrlState × List String × Except ControllerError ConfResult :=
  let params := params₀.filter (fun e => pyStrip e != "")
  if params.isEmpty then (st, [], .ok (.map []))
  else
    let lookupParams :=
      dedupKeepFirst (params.map (fun e => (alookup MAPPED_CONFIG_KEYS e).getD e))
    getConfMapFetch st params
      (lookupParams.filterMap
        (fun p => (alookup st.getconfCache ("getconf." ++ pyLower p)).map (fun v => (p, v))))
      (lookupParams.filter
        (fun p => (alookup st.getconfCache ("getconf." ++ pyLower p)).isNone))
      hasDefault multiple resp

/-- `Controller.get_conf(param, default, multiple)` from
src/stem/control.py: lowercase and strip the key; a blank key returns the
default (or `None`) without any socket traffic; otherwise delegate to
`get_conf_map` and project the answer with a case-insensitive lookup.
(When `get_conf_map` falls back to an opaque non-dict default the source
would iterate that default object itself; that corner is returned as the
default unchanged here.) -/
def get_conf (st : CtrlState) (param : String) (hasDefault multiple : Bool)
    (resp : Except ControllerError (List (String × List (Option String)))) :
    CtrlState × List String × Except ControllerError ConfResult :=
  let p := pyStrip (pyLower param)
  if p = "" then
    (st, [], .ok (if hasDefault then .dflt else .pyNone))
  else
    match get_conf_map st [p] hasDefault multiple resp with
    | (st', wire, .error e) => (st', wire, .error e)
    | (st', wire, .ok (.map m)) =>
      match ciLookupMap m p with
      | some v => (st', wire, .ok (.list v))
      | none =>
        if hasDefault then (st', wire, .ok .dflt)
        else (st', wire, .error (.valueError ("key '" ++ p ++ "' doesn't exist in dict")))
    | (st', wire, .ok (.mapFirst m)) =>
      match ciLookupMap m p with
      | some v => (st', wire, .ok (.str v))
      | none =>
        if hasDefault then (st', wire, .ok .dflt)
        else (st', wire, .error (.valueError ("key '" ++ p ++ "' doesn't exist in dict")))
    | (st', wire, .ok other) => (st', wire, .ok other)

/-! ## Part 2: lemmas and claim theorems -/

lemma strReplace_nil (pat rep : List Char) : strReplace pat rep [] = [] := by
  rw [strReplace]

lemma strReplace_cons (pat rep : List Char) (c : Char) (rest : List Char) :
    strReplace pat rep (c :: rest) =
      if (!pat.isEmpty && pat.isPrefixOf (c :: rest)) = true then
        rep ++ strReplace pat rep (List.drop pat.length (c :: rest))
      else c :: strReplace pat rep rest := by
  rw [strReplace]
  split <;> rfl

lemma strReplace_crlf_eq (l : List Char) :
    strReplace ['\r', '\n'] ['\n'] l = crlfToLf l := by
  have H : ∀ n (l : List Char), l.length ≤ n →
      strReplace ['\r', '\n'] ['\n'] l = crlfToLf l := by
    intro n
    induction n with
    | zero =>
      intro l h
      have hl : l = [] := List.length_eq_zero.mp (Nat.le_zero.mp h)
      subst hl
      rw [strReplace_nil]
      rfl
    | succ n ih =>
      intro l h
      match l with
      | [] =>
        rw [strReplace_nil]
        rfl
      | [c] =>
        simp [strReplace_cons, strReplace_nil, List.isPrefixOf, crlfToLf]
      | c₁ :: c₂ :: rest =>
        by_cases hc : c₁ = '\r' ∧ c₂ = '\n'
        · obtain ⟨rfl, rfl⟩ := hc
          have ih' := ih rest (by simp at h; omega)
          simp [strReplace_cons, List.isPrefixOf, crlfToLf, ih']
        · have hpre : (['\r', '\n'].isPrefixOf (c₁ :: c₂ :: rest)) = false := by
            simp [List.isPrefixOf]
            tauto
          have ih' := ih (c₂ :: rest) (by simp at h ⊢; omega)
          simp [strReplace_cons, hpre, crlfToLf, hc, ih']
  exact H l.length l (Nat.le_refl _)

lemma strReplace_lf_eq (l : List Char) :
    strReplace ['\n'] ['\r', '\n'] l = lfToCrlf l := by
  induction l with
  | nil => rw [strReplace_nil]; rfl
  | cons c rest ih =>
    by_cases hc : c = '\n'
    · subst hc
      simp [strReplace_cons, List.isPrefixOf, lfToCrlf, ih]
    · have hpre : (['\n'].isPrefixOf (c :: rest)) = false := by
        simp [List.isPrefixOf]
        tauto
      simp [strReplace_cons, hpre, lfToCrlf, hc, ih]

/-- C7: `send_formatting` first normalizes every CRLF to LF; if the
normalized result contains an LF it returns `+` followed by the message
with each LF replaced by CRLF, followed by `CRLF . CRLF` (the multi-line
form); otherwise it returns the message followed by a single CRLF. -/
theorem c7_send_formatting (message : List Char) :
    send_formatting message =
      (if (crlfToLf message).contains '\n' then
        '+' :: (lfToCrlf (crlfToLf message) ++ ['\r', '\n', '.', '\r', '\n'])
      else
        crlfToLf message ++ ['\r', '\n']) := by
  simp only [send_formatting]
  rw [strReplace_crlf_eq, strReplace_lf_eq]

/-- C8: an incoming reply line shorter than 4 characters — read at any
top-of-reply position, whatever was parsed before — makes `recv_message`
raise `ProtocolError` (message "too short"), except that a read yielding
zero bytes — end of stream, whether as an empty line or an exhausted
stream — raises `SocketClosed`. -/
theorem c8_short_line (line : List Char) (rest : List (List Char))
    (h : line.length < 4) :
    (∀ parsed, line ≠ [] →
      recvGo parsed .top (line :: rest)
        = .error (.protocolError "Badly formatted reply line: too short"))
  ∧ (line = [] →
      recv_message (line :: rest)
        = .error (.socketClosed "Received empty socket content."))
  ∧ recv_message [] = .error (.socketClosed "Received empty socket content.") := by
  refine ⟨?_, ?_, rfl⟩
  · intro parsed hne
    have h0 : ¬line.length = 0 := by simpa using hne
    simp [recvGo, h0, h]
  · rintro rfl
    simp [recv_message, recvGo]

/-- Witness for C8 at the concrete short line `"25\r"`. -/
theorem c8_short_line_witness :
    recv_message ["25\r".data]
      = .error (.protocolError "Badly formatted reply line: too short")
  ∧ recv_message [] = .error (.socketClosed "Received empty socket content.") := by
  have h := c8_short_line "25\r".data [] (by decide)
  exact ⟨h.1 [] (by decide), h.2.2⟩

/-- C1 counterexample: the reader loop inspects only the FINAL line's
status code, so a message with a 650-coded line interleaved mid-reply (and
a 250 final line) is deposited in the reply queue, not the event queue —
refuting "a message that contains a 650 line, even interleaved, is placed
on the event queue and never returned as a reply". -/
theorem c1_counterexample :
    (ControlMessage.content
        ⟨[⟨['6', '5', '0'], '-', "CIRC 1 LAUNCHED".data⟩,
          ⟨['2', '5', '0'], ' ', "OK".data⟩]⟩).any
        (fun l => l.code == ['6', '5', '0']) = true
  ∧ reader_loop
      [.ok ⟨[⟨['6', '5', '0'], '-', "CIRC 1 LAUNCHED".data⟩,
             ⟨['2', '5', '0'], ' ', "OK".data⟩]⟩]
      = ([],
         [.msg ⟨[⟨['6', '5', '0'], '-', "CIRC 1 LAUNCHED".data⟩,
                 ⟨['2', '5', '0'], ' ', "OK".data⟩]⟩]) := by
  decide

lemma reader_loop_650_not_reply (stream : List (Except ControllerError ControlMessage))
    (m : ControlMessage) (hlast : lastStatusCode m = ['6', '5', '0']) :
    QueueItem.msg m ∉ (reader_loop stream).2 := by
  induction stream with
  | nil => simp [reader_loop]
  | cons x rest ih =>
    match x with
    | .ok m' =>
      by_cases h6 : lastStatusCode m' = ['6', '5', '0']
      · simpa [reader_loop, h6] using ih
      · simp only [reader_loop, h6, if_false]
        intro hmem
        rcases List.mem_cons.mp hmem with heq | hmem'
        · have : m = m' := by injection heq
          exact h6 (this ▸ hlast)
        · exact ih hmem'
    | .error e =>
      simp only [reader_loop]
      intro hmem
      rcases List.mem_cons.mp hmem with heq | hmem'
      · exact QueueItem.noConfusion heq
      · exact ih hmem'

lemma reader_loop_650_event (stream : List (Except ControllerError ControlMessage))
    (m : ControlMessage) (hmem : Except.ok m ∈ stream)
    (hlast : lastStatusCode m = ['6', '5', '0']) :
    m ∈ (reader_loop stream).1 := by
  induction stream with
  | nil => cases hmem
  | cons x rest ih =>
    rcases List.mem_cons.mp hmem with heq | hmem'
    · cases heq.symm
      simp [reader_loop, hlast]
    · match x with
      | .ok m' =>
        by_cases h6 : lastStatusCode m' = ['6', '5', '0'] <;>
          simp [reader_loop, h6, ih hmem']
      | .error e =>
        simpa [reader_loop] using ih hmem'

lemma event_loop_delivers (queue : List ControlMessage) :
    event_loop queue = queue := by
  induction queue with
  | nil => rfl
  | cons m rest ih => simp [event_loop, ih]

/-- C1 amended: a decoded message whose FINAL line's status code is 650 is
placed on the event queue, delivered to the event handler by the event
loop, and never deposited in the reply queue for a `msg()` caller; 650
lines interleaved mid-reply do not make a message an event. -/
theorem c1_amended_650_routing (stream : List (Except ControllerError ControlMessage))
    (m : ControlMessage) (hmem : Except.ok m ∈ stream)
    (hlast : lastStatusCode m = ['6', '5', '0']) :
    m ∈ (reader_loop stream).1
  ∧ m ∈ event_loop (reader_loop stream).1
  ∧ QueueItem.msg m ∉ (reader_loop stream).2 :=
  ⟨reader_loop_650_event stream m hmem hlast,
   (event_loop_delivers (reader_loop stream).1).symm ▸
     reader_loop_650_event stream m hmem hlast,
   reader_loop_650_not_reply stream m hlast⟩

/-- Witness for the amended C1 at a concrete one-event stream. -/
theorem c1_amended_650_routing_witness :
    (⟨[⟨['6', '5', '0'], ' ', "CIRC 2 BUILT".data⟩]⟩ : ControlMessage)
        ∈ (reader_loop [.ok ⟨[⟨['6', '5', '0'], ' ', "CIRC 2 BUILT".data⟩]⟩]).1
  ∧ (⟨[⟨['6', '5', '0'], ' ', "CIRC 2 BUILT".data⟩]⟩ : ControlMessage)
        ∈ event_loop (reader_loop [.ok ⟨[⟨['6', '5', '0'], ' ', "CIRC 2 BUILT".data⟩]⟩]).1
  ∧ QueueItem.msg ⟨[⟨['6', '5', '0'], ' ', "CIRC 2 BUILT".data⟩]⟩
        ∉ (reader_loop [.ok ⟨[⟨['6', '5', '0'], ' ', "CIRC 2 BUILT".data⟩]⟩]).2 :=
  c1_amended_650_routing _ _ (List.mem_singleton.mpr rfl) (by decide)

/-- C2: on a live controller the first `close()` flips `is_alive()` to
false and notifies every registered status listener of `CLOSED` exactly
once (one log entry per listener, in registration order); closing again is
a no-op — the state is unchanged and no further notification fires. -/
theorem c2_close_idempotent (s : ConnSt) (h : s.isAlive = true) :
    (control_socket_close s).isAlive = false
  ∧ (control_socket_close s).notifications
      = s.notifications ++ s.listeners.map (fun l => (l, State.CLOSED))
  ∧ (control_socket_close s).listeners = s.listeners
  ∧ control_socket_close (control_socket_close s) = control_socket_close s := by
  obtain ⟨a, ls, ns⟩ := s
  cases h
  simp [control_socket_close, base_controller_close, notify_status_listeners]

/-- Witness for C2 at a live controller with two listeners. -/
theorem c2_close_idempotent_witness :
    (control_socket_close ⟨true, [0, 1], []⟩).isAlive = false
  ∧ (control_socket_close ⟨true, [0, 1], []⟩).notifications
      = [(0, State.CLOSED), (1, State.CLOSED)]
  ∧ control_socket_close (control_socket_close ⟨true, [0, 1], []⟩)
      = control_socket_close ⟨true, [0, 1], []⟩ := by
  have h := c2_close_idempotent ⟨true, [0, 1], []⟩ rfl
  exact ⟨h.1, by simpa using h.2.1, h.2.2.2⟩

lemma control_socket_close_not_alive (s : ConnSt) :
    (control_socket_close s).isAlive = false := by
  obtain ⟨a, ls, ns⟩ := s
  cases a <;>
    simp [control_socket_close, base_controller_close, notify_status_listeners]

/-- C6 counterexample: a `send` whose underlying write fails with a
`socket.error` that is not the broken-pipe message propagates `SocketError`
but leaves the connection open (`is_alive()` still true) — refuting "the
transport closes the connection ... for both the broken-pipe/closed case
and other socket write errors". -/
theorem c6_counterexample :
    control_socket_send ⟨true, [], []⟩
        (.socketError "[Errno 111] Connection refused")
      = (⟨true, [], []⟩, .error (.socketError "[Errno 111] Connection refused"))
  ∧ (⟨true, [], []⟩ : ConnSt).isAlive = true :=
  ⟨rfl, rfl⟩

/-- C6 amended: on a live socket, a failing `send` propagates the error,
which is always of the socket family (`SocketError` or its subclass
`SocketClosed`); the transport closes the connection if and only if the
failure is a `SocketClosed` (broken pipe, or file already detached) — any
other socket write error propagates with the connection left open. -/
theorem c6_amended_send_failure (s : ConnSt) (w : WriteResult) (e : ControllerError)
    (ha : s.isAlive = true) (hw : sendMessageOutcome w = .error e) :
    (control_socket_send s w).2 = .error e
  ∧ e.isSocketKind = true
  ∧ ((control_socket_send s w).1.isAlive = false ↔ e.isSocketClosed = true) := by
  have hsend : control_socket_send s w
      = (if e.isSocketClosed then control_socket_close s else s, .error e) := by
    by_cases hc : e.isSocketClosed = true <;>
      simp [control_socket_send, ha, hw, hc]
  rw [hsend]
  refine ⟨rfl, ?_, ?_⟩
  · cases w with
    | success => simp [sendMessageOutcome] at hw
    | socketError m =>
      by_cases hbp : (m == "[Errno 32] Broken pipe") = true <;>
        · simp [sendMessageOutcome, hbp] at hw
          subst hw
          rfl
    | attributeError =>
      simp [sendMessageOutcome] at hw
      subst hw
      rfl
  · by_cases hc : e.isSocketClosed = true
    · simp [hc, control_socket_close_not_alive]
    · simp [hc, ha]

/-- Witness for the amended C6 at a live socket and a connection-reset
write error. -/
theorem c6_amended_send_failure_witness :
    (control_socket_send ⟨true, [], []⟩
        (.socketError "[Errno 104] Connection reset by peer")).2
      = .error (.socketError "[Errno 104] Connection reset by peer")
  ∧ (ControllerError.socketError "[Errno 104] Connection reset by peer").isSocketKind
      = true
  ∧ ((control_socket_send ⟨true, [], []⟩
        (.socketError "[Errno 104] Connection reset by peer")).1.isAlive = false
      ↔ (ControllerError.socketError
          "[Errno 104] Connection reset by peer").isSocketClosed = true) :=
  c6_amended_send_failure ⟨true, [], []⟩
    (.socketError "[Errno 104] Connection reset by peer")
    (.socketError "[Errno 104] Connection reset by peer") rfl rfl

/-- C3, evaluating the code at the failing inputs. With caller casing
`"HiddenServicePort"` (whose lowercased form IS in the alias table) the
wire command is `GETCONF HiddenServicePort`, not the canonical
`GETCONF HiddenServiceOptions`: the alias lookup is case-sensitive against
a lowercase-keyed table. And with the lowercased caller key
`"hiddenserviceport"` (where the alias DOES fire) the group reply key
`HiddenServicePort` is rewritten to the caller's casing instead of keeping
the tor-provided casing: the rewrite guard compares `key.lower()` against
the camel-cased `MAPPED_CONFIG_KEYS.values()` and never matches. -/
theorem c3_alias_eval :
    (get_conf_map ⟨[], [], 0, true⟩ ["HiddenServicePort"] false true (.ok [])).2.1
      = ["GETCONF HiddenServicePort"]
  ∧ (get_conf_map ⟨[], [], 0, true⟩ ["hiddenserviceport"] false true
        (.ok [("HiddenServiceDir", [some "/var/lib/tor/hidden_service/"]),
              ("HiddenServicePort", [some "80 127.0.0.1:80"])])).2.2
      = .ok (.map [("HiddenServiceDir", [some "/var/lib/tor/hidden_service/"]),
                   ("hiddenserviceport", [some "80 127.0.0.1:80"])]) :=
  ⟨rfl, rfl⟩

/-- C4, evaluating the code at the failing input. With a caller-supplied
default (`hasDefault = true`), a `get_info` for an `ip-to-country/` key
while the geoip database is judged unavailable still raises
`ProtocolError` — the raise sits in the cache-check loop, outside the
`try` block that applies the default — and sends nothing on the wire. -/
theorem c4_geoip_default_eval :
    get_info ⟨[], [], 5, true⟩ ["ip-to-country/1.2.3.4"] false true
        (.ok [("ip-to-country/1.2.3.4", "US")])
      = (⟨[], [], 5, true⟩, [],
         .error (.protocolError "Tor geoip database is unavailable")) :=
  rfl

lemma cacheGetinfoStep_count_neg_one (st : CtrlState) (kv : String × String)
    (h : st.geoipFailureCount = -1) :
    (cacheGetinfoStep st kv).geoipFailureCount = -1 := by
  unfold cacheGetinfoStep
  dsimp only
  split
  · exact h
  · split
    · rfl
    · exact h

lemma cacheGetinfoEntries_count_neg_one :
    ∀ (entries : List (String × String)) (st : CtrlState),
      st.geoipFailureCount = -1 →
        (cacheGetinfoEntries st entries).geoipFailureCount = -1 := by
  intro entries
  induction entries with
  | nil => intro st h; exact h
  | cons kv rest ih =>
    intro st h
    exact ih _ (cacheGetinfoStep_count_neg_one st kv h)

lemma getInfoFailureCount_neg_one (st : CtrlState) (remaining : List String)
    (h : st.geoipFailureCount = -1) :
    (getInfoFailureCount st remaining).geoipFailureCount = -1 := by
  simp [getInfoFailureCount, h]

lemma get_info_count_neg_one (st : CtrlState) (params : List String)
    (isMultiple hasDefault : Bool)
    (resp : Except ControllerError (List (String × String)))
    (h : st.geoipFailureCount = -1) :
    ((get_info st params isMultiple hasDefault resp).1).geoipFailureCount = -1 := by
  unfold get_info
  split
  · exact h
  · split
    · exact h
    · split
      · exact h
      · split
        · split
          · exact cacheGetinfoEntries_count_neg_one _ _ h
          · exact h
        · split
          · exact getInfoFailureCount_neg_one _ _ h
          · exact getInfoFailureCount_neg_one _ _ h

lemma cacheGetconfEntries_count (st : CtrlState)
    (entries : List (String × List (Option String))) :
    (cacheGetconfEntries st entries).geoipFailureCount = st.geoipFailureCount := by
  unfold cacheGetconfEntries
  dsimp only
  split <;> rfl

lemma getConfMapFetch_count (st : CtrlState) (params : List String)
    (reply : List (String × List (Option String))) (remaining : List String)
    (hasDefault multiple : Bool)
    (resp : Except ControllerError (List (String × List (Option String)))) :
    ((getConfMapFetch st params reply remaining hasDefault multiple resp).1).geoipFailureCount
      = st.geoipFailureCount := by
  unfold getConfMapFetch
  split
  · rfl
  · split
    · split <;> rfl
    · exact cacheGetconfEntries_count _ _

lemma get_conf_map_count (st : CtrlState) (params₀ : List String)
    (hasDefault multiple : Bool)
    (resp : Except ControllerError (List (String × List (Option String)))) :
    ((get_conf_map st params₀ hasDefault multiple resp).1).geoipFailureCount
      = st.geoipFailureCount := by
  unfold get_conf_map
  dsimp only
  split
  · rfl
  · exact getConfMapFetch_count _ _ _ _ _ _ _

lemma get_conf_count (st : CtrlState) (param : String) (hasDefault multiple : Bool)
    (resp : Except ControllerError (List (String × List (Option String)))) :
    ((get_conf st param hasDefault multiple resp).1).geoipFailureCount
      = st.geoipFailureCount := by
  unfold get_conf
  dsimp only
  split
  · rfl
  · rcases hm : get_conf_map st [pyStrip (pyLower param)] hasDefault multiple resp
      with ⟨st', wire, r⟩
    have hc := get_conf_map_count st [pyStrip (pyLower param)] hasDefault multiple resp
    rw [hm] at hc
    cases r with
    | error e => exact hc
    | ok cr =>
      cases cr <;> dsimp only <;>
        first
          | exact hc
          | (split <;> first | exact hc | (split <;> exact hc))

/-- C5 counterexample: a controller in the sticky-success state (counter
`-1`) on which `clear_cache()` — a public operation callers may invoke at
any time during the connection — is invoked ends with counter `0`, so the
counter does NOT remain `-1` for the rest of the connection's lifetime. -/
theorem c5_counterexample :
    (clear_cache ⟨[("getinfo.ip-to-country/1.2.3.4", "US")], [], -1, true⟩).geoipFailureCount
      = 0
  ∧ (clear_cache ⟨[("getinfo.ip-to-country/1.2.3.4", "US")], [], -1, true⟩).geoipFailureCount
      ≠ -1 :=
  ⟨rfl, by decide⟩

/-- C5 amended: once the counter holds the sticky-success sentinel `-1`, it
stays `-1` across every subsequent `get_info`, `get_conf_map` and
`get_conf` call (so `is_geoip_unavailable()` stays false and failures are
not counted); only `clear_cache()` — called directly or via `connect()` —
leaves that state, resetting the counter to `0`. -/
theorem c5_amended_sticky (st : CtrlState) (h : st.geoipFailureCount = -1) :
    (∀ params isMultiple hasDefault resp,
      ((get_info st params isMultiple hasDefault resp).1).geoipFailureCount = -1)
  ∧ (∀ params hasDefault multiple resp,
      ((get_conf_map st params hasDefault multiple resp).1).geoipFailureCount = -1)
  ∧ (∀ param hasDefault multiple resp,
      ((get_conf st param hasDefault multiple resp).1).geoipFailureCount = -1)
  ∧ (clear_cache st).geoipFailureCount = 0 :=
  ⟨fun params im hd resp => get_info_count_neg_one st params im hd resp h,
   fun params hd m resp => (get_conf_map_count st params hd m resp).trans h,
   fun param hd m resp => (get_conf_count st param hd m resp).trans h,
   rfl⟩

/-- Witness for the amended C5 at a concrete sticky-success state. -/
theorem c5_amended_sticky_witness :
    ((get_info ⟨[], [], -1, true⟩ ["ip-to-country/1.2.3.4"] false false
        (.error (.socketClosed ""))).1).geoipFailureCount = -1
  ∧ (clear_cache ⟨[], [], -1, true⟩).geoipFailureCount = 0 := by
  have h := c5_amended_sticky ⟨[], [], -1, true⟩ rfl
  exact ⟨h.1 ["ip-to-country/1.2.3.4"] false false (.error (.socketClosed "")),
         h.2.2.2⟩

/-- C9: `clear_cache()` always resets the geoip failure counter to 0 (also
from the sticky `-1` state — the assignment is unconditional), immediately
after it `is_geoip_unavailable()` is false, and a subsequent failing sole
`ip-to-country/` lookup is counted again starting from zero (the counter
moves to 1). -/
theorem c9_clear_cache_restarts (st : CtrlState) (k : String) (e : ControllerError)
    (hc : st.isCachingEnabled = true)
    (hk : pyStartsWith k "ip-to-country/" = true) :
    (clear_cache st).geoipFailureCount = 0
  ∧ is_geoip_unavailable (clear_cache st) = false
  ∧ ((get_info (clear_cache st) [k] false false (.error e)).1).geoipFailureCount = 1 := by
  refine ⟨rfl, rfl, ?_⟩
  simp [clear_cache, get_info, dedupKeepFirst, dedupSeen, getInfoScan, alookup,
    is_geoip_unavailable, GEOIP_FAILURE_THRESHOLD, getInfoAttempt,
    getInfoFailureCount, hk, hc]

/-- Witness for C9 at a concrete cached state with a positive counter. -/
theorem c9_clear_cache_restarts_witness :
    (clear_cache ⟨[("getinfo.version", "0.2.3.24-rc")], [], 7, true⟩).geoipFailureCount = 0
  ∧ is_geoip_unavailable
      (clear_cache ⟨[("getinfo.version", "0.2.3.24-rc")], [], 7, true⟩) = false
  ∧ ((get_info (clear_cache ⟨[("getinfo.version", "0.2.3.24-rc")], [], 7, true⟩)
        ["ip-to-country/8.8.8.8"] false false
        (.error (.socketClosed ""))).1).geoipFailureCount = 1 :=
  c9_clear_cache_restarts ⟨[("getinfo.version", "0.2.3.24-rc")], [], 7, true⟩
    "ip-to-country/8.8.8.8" (.socketClosed "") rfl rfl

lemma toLower_of_pySpace (c : Char) (h : isPySpace c = true) :
    Char.toLower c = c := by
  simp [isPySpace] at h
  rcases h with ((((h | h) | h) | h) | h) | h <;> subst h <;> decide

lemma pyStrip_lower_blank (param : String) (h : param.data.all isPySpace = true) :
    pyStrip (pyLower param) = "" := by
  have hall : ∀ c ∈ param.data.map Char.toLower, isPySpace c = true := by
    intro c hcmem
    obtain ⟨c₀, hc₀, rfl⟩ := List.mem_map.mp hcmem
    have h₀ := (List.all_eq_true.mp h) c₀ hc₀
    rw [toLower_of_pySpace c₀ h₀]
    exact h₀
  have hdrop : (param.data.map Char.toLower).dropWhile isPySpace = [] :=
    List.dropWhile_eq_nil_iff.mpr hall
  show String.mk (pyStripList (param.data.map Char.toLower)) = ""
  unfold pyStripList
  rw [hdrop]
  rfl

/-- C10: `get_conf` on a parameter that is empty or whitespace-only after
stripping returns `None` without a default and the default otherwise, and
in either case no command is sent on the socket. -/
theorem c10_blank_param (st : CtrlState) (param : String)
    (hasDefault multiple : Bool)
    (resp : Except ControllerError (List (String × List (Option String))))
    (h : param.data.all isPySpace = true) :
    get_conf st param hasDefault multiple resp
      = (st, [], .ok (if hasDefault then .dflt else .pyNone)) := by
  have hb := pyStrip_lower_blank param h
  simp [get_conf, hb]

/-- Witness for C10 at the whitespace-only parameter `" \t "`. -/
theorem c10_blank_param_witness :
    get_conf ⟨[], [], 0, true⟩ " \t " false false (.ok [])
      = (⟨[], [], 0, true⟩, [], .ok .pyNone) :=
  c10_blank_param ⟨[], [], 0, true⟩ " \t " false false (.ok []) (by decide)

end Stem
